import Mathlib

/-!
Shallow embedding of `fault_inject.c`, an LD_PRELOAD fault-injection
library interposing on connect/send/recv/write/read/open/close.

Modelling choices:
* The process-wide globals (configuration, fd registry, statistics,
  log sink, random source) form one explicit state `GState`; each
  intercepted operation is a pure function from state (plus arguments)
  to result and new state.
* The "real" implementations resolved via `dlsym(RTLD_NEXT, ...)` are
  an environment `Env` of oracles, always present (the provider
  capability). Every invocation of a real operation is recorded in
  `GState.trace`, making "the real call was / was not performed"
  observable.
* `rand()` is modelled as a stream of natural numbers, clamped to
  `[0, RAND_MAX]`; `srand` seeding is absorbed into the initial stream.
* C `double` rates are modelled as rationals: the decision logic only
  compares them with 0 and 1 and with `rand()/RAND_MAX`.
* The caller-visible `errno` cell models only the assignments performed
  by the wrappers themselves.
* Buffers are `List Nat`; a real recv/read oracle returns both the
  return value and the buffer contents after the real call, so that
  "the wrapper does not touch the caller's buffer" is expressible.
-/

namespace FaultInject

/-- RAND_MAX on the modelled platform (glibc). -/
def RAND_MAX : Nat := 2147483647

/-- MAX_TRACKED_FDS from the source. -/
def MAX_TRACKED_FDS : Int := 4096

/-- O_CREAT flag bit (Linux, 0100 octal). -/
def O_CREAT : Nat := 64

/-- errno constant EPIPE (Linux). -/
def EPIPE : Int := 32

/-- errno constant ECONNRESET (Linux). -/
def ECONNRESET : Int := 104

/-- errno constant ECONNREFUSED (Linux). -/
def ECONNREFUSED : Int := 111

/-- errno constant ETIMEDOUT (Linux). -/
def ETIMEDOUT : Int := 110

/-- errno constant ENOENT (Linux). -/
def ENOENT : Int := 2

/-- errno constant EACCES (Linux). -/
def EACCES : Int := 13

/-- errno constant EIO (Linux). -/
def EIO : Int := 5

/-- Source `errno_name`: symbolic name of an errno value for logging. -/
def errno_name (err : Int) : String :=
  if err = EPIPE then "EPIPE"
  else if err = ECONNRESET then "ECONNRESET"
  else if err = ECONNREFUSED then "ECONNREFUSED"
  else if err = ETIMEDOUT then "ETIMEDOUT"
  else if err = ENOENT then "ENOENT"
  else if err = EACCES then "EACCES"
  else if err = EIO then "EIO"
  else "?"

/-- A socket address: IPv4 or IPv6 carrying an abstract numeric address
and a port (already in host byte order), or some other address family
(carrying the raw `sa_family` value). -/
inductive SockAddr where
  | v4 (addr : Nat) (port : Nat)
  | v6 (addr : Nat) (port : Nat)
  | other (family : Nat)
deriving DecidableEq

/-- Printable form of an address, standing in for `inet_ntop`; the
source initialises the buffer to "?" and only fills it for the
IPv4/IPv6 families. -/
def addr_str (a : SockAddr) : String :=
  match a with
  | SockAddr.v4 n _ => toString n
  | SockAddr.v6 n _ => toString n
  | SockAddr.other _ => "?"

/-- Port of an address as extracted in the connect inject branch
(0 for families other than IPv4/IPv6). -/
def addr_port (a : SockAddr) : Nat :=
  match a with
  | SockAddr.v4 _ p => p
  | SockAddr.v6 _ p => p
  | SockAddr.other _ => 0

/-- One line appended to the log sink. -/
inductive LogEvent where
  | inject (func : String) (fd : Int) (detail : String)
  | stats (connect_injected send_injected recv_injected short_reads : Nat)
deriving DecidableEq

/-- A record of one invocation of a real (underlying) operation,
with the arguments passed to it. -/
inductive RealCall where
  | connect (fd : Int) (addr : SockAddr)
  | send (fd : Int) (buf : List Nat) (len : Nat) (flags : Int)
  | recv (fd : Int) (len : Nat) (flags : Int)
  | write (fd : Int) (buf : List Nat) (count : Nat)
  | read (fd : Int) (count : Nat)
  | open' (path : String) (flags : Nat) (mode : Int)
  | close (fd : Int)
deriving DecidableEq

/-- State of the seeded random source: the stream of upcoming `rand()`
outputs. -/
structure RandState where
  stream : List Nat
deriving DecidableEq

/-- One `rand()` call: next value of the stream, clamped to
`[0, RAND_MAX]`, and the advanced source. -/
def rand_next (r : RandState) : Nat × RandState :=
  (r.stream.headD 0 % (RAND_MAX + 1), ⟨r.stream.tail⟩)

/-- The process-wide mutable state: configuration (immutable after
initialisation: the operations below never write those fields),
statistics counters, fd registry, log, random source, the recorded
latency sleeps, the wrapper-set errno cell, and the trace of real
calls performed. -/
structure GState where
  enabled : Bool
  connect_fail_rate : ℚ
  connect_errno : Int
  send_fail_rate : ℚ
  send_errno : Int
  recv_fail_rate : ℚ
  recv_short_rate : ℚ
  recv_errno : Int
  open_fail_rate : ℚ
  open_errno : Int
  latency_ms : Int
  target_port : Nat
  log_open : Bool
  log : List LogEvent
  stat_connect_injected : Nat
  stat_send_injected : Nat
  stat_recv_injected : Nat
  stat_short_reads : Nat
  targeted_fds : Finset Int
  rand : RandState
  sleeps : List Int
  errno : Int
  trace : List RealCall
deriving DecidableEq

/-- The real implementations resolved from the "real operation
provider": one oracle per intercepted operation. recv/read oracles
return the value and the caller's buffer contents after the real call. -/
structure Env where
  real_connect : Int → SockAddr → Int
  real_send : Int → List Nat → Nat → Int → Int
  real_recv : Int → List Nat → Nat → Int → Int × List Nat
  real_write : Int → List Nat → Nat → Int
  real_read : Int → List Nat → Nat → Int × List Nat
  real_open : String → Nat → Int → Int
  real_close : Int → Int

/-- Source `should_inject`: rate ≤ 0 never injects, rate ≥ 1 always
injects, otherwise compare `rand()/RAND_MAX` with the rate (consuming
one draw only in that middle case). -/
def should_inject (rate : ℚ) (r : RandState) : Bool × RandState :=
  if rate ≤ 0 then (false, r)
  else if 1 ≤ rate then (true, r)
  else
    let d := rand_next r
    (decide ((d.1 : ℚ) / (RAND_MAX : ℚ) < rate), d.2)

/-- Source `log_inject`: append an event if the log sink is open. -/
def log_inject (s : GState) (func : String) (fd : Int) (detail : String) : GState :=
  if s.log_open then {s with log := s.log ++ [LogEvent.inject func fd detail]} else s

/-- Source `add_latency`: sleep `latency_ms` when positive (recorded in
`sleeps`). -/
def add_latency (s : GState) : GState :=
  if 0 < s.latency_ms then {s with sleeps := s.sleeps ++ [s.latency_ms]} else s

/-- Source `is_targeted_fd`: out-of-bounds descriptors are never
targeted; otherwise membership in the registry. -/
def is_targeted_fd (s : GState) (fd : Int) : Bool :=
  if fd < 0 ∨ MAX_TRACKED_FDS ≤ fd then false else decide (fd ∈ s.targeted_fds)

/-- Source `mark_targeted_fd`: insert an in-bounds descriptor, no-op
otherwise. -/
def mark_targeted_fd (fd : Int) (reg : Finset Int) : Finset Int :=
  if 0 ≤ fd ∧ fd < MAX_TRACKED_FDS then insert fd reg else reg

/-- Source `unmark_targeted_fd`: remove an in-bounds descriptor, no-op
otherwise. -/
def unmark_targeted_fd (fd : Int) (reg : Finset Int) : Finset Int :=
  if 0 ≤ fd ∧ fd < MAX_TRACKED_FDS then reg.erase fd else reg

/-- Source `matches_target`: true when no port filter is configured;
otherwise the port of an IPv4/IPv6 address must equal the filter, and
any other family does not match. -/
def matches_target (s : GState) (addr : SockAddr) : Bool :=
  if s.target_port = 0 then true
  else
    match addr with
    | SockAddr.v4 _ port => decide (port = s.target_port)
    | SockAddr.v6 _ port => decide (port = s.target_port)
    | SockAddr.other _ => false

/-- Truncated length reported by a short-read injection in the source:
`1 + rand() % ((ret + 1) / 2)` for real returned length `ret`. -/
def short_read_length (n : Int) (draw : Nat) : Int :=
  1 + (draw : Int) % ((n + 1) / 2)

/-- Intercepted `connect`. -/
def connect (env : Env) (s : GState) (sockfd : Int) (addr : SockAddr) : Int × GState :=
  if s.enabled = false then
    (env.real_connect sockfd addr,
      {s with trace := s.trace ++ [RealCall.connect sockfd addr]})
  else
    let targeted := matches_target s addr
    let s1 := if targeted then {s with targeted_fds := mark_targeted_fd sockfd s.targeted_fds} else s
    let s2 := add_latency s1
    if targeted then
      let di := should_inject s2.connect_fail_rate s2.rand
      let s3 := {s2 with rand := di.2}
      if di.1 then
        let detail := "-> " ++ errno_name s3.connect_errno ++ " (addr=" ++
          addr_str addr ++ ":" ++ toString (addr_port addr) ++ ")"
        let s4 := log_inject s3 "connect" sockfd detail
        (-1, {s4 with stat_connect_injected := s4.stat_connect_injected + 1,
                      errno := s4.connect_errno})
      else
        (env.real_connect sockfd addr,
          {s3 with trace := s3.trace ++ [RealCall.connect sockfd addr]})
    else
      (env.real_connect sockfd addr,
        {s2 with trace := s2.trace ++ [RealCall.connect sockfd addr]})

/-- Intercepted `send`. -/
def send (env : Env) (s : GState) (sockfd : Int) (buf : List Nat) (len : Nat)
    (flags : Int) : Int × GState :=
  if s.enabled = false then
    (env.real_send sockfd buf len flags,
      {s with trace := s.trace ++ [RealCall.send sockfd buf len flags]})
  else if is_targeted_fd s sockfd = false ∧ s.target_port ≠ 0 then
    (env.real_send sockfd buf len flags,
      {s with trace := s.trace ++ [RealCall.send sockfd buf len flags]})
  else
    let s1 := add_latency s
    let di := should_inject s1.send_fail_rate s1.rand
    let s2 := {s1 with rand := di.2}
    if di.1 then
      let detail := "-> " ++ errno_name s2.send_errno ++ " (len=" ++ toString len ++ ")"
      let s3 := log_inject s2 "send" sockfd detail
      (-1, {s3 with stat_send_injected := s3.stat_send_injected + 1,
                    errno := s3.send_errno})
    else
      (env.real_send sockfd buf len flags,
        {s2 with trace := s2.trace ++ [RealCall.send sockfd buf len flags]})

/-- Intercepted `recv`: result value, caller's buffer contents after
the call, and new state. -/
def recv (env : Env) (s : GState) (sockfd : Int) (buf : List Nat) (len : Nat)
    (flags : Int) : Int × List Nat × GState :=
  if s.enabled = false then
    let r := env.real_recv sockfd buf len flags
    (r.1, r.2, {s with trace := s.trace ++ [RealCall.recv sockfd len flags]})
  else if is_targeted_fd s sockfd = false ∧ s.target_port ≠ 0 then
    let r := env.real_recv sockfd buf len flags
    (r.1, r.2, {s with trace := s.trace ++ [RealCall.recv sockfd len flags]})
  else
    let s1 := add_latency s
    let di := should_inject s1.recv_fail_rate s1.rand
    let s2 := {s1 with rand := di.2}
    if di.1 then
      let s3 := log_inject s2 "recv" sockfd ("-> " ++ errno_name s2.recv_errno)
      (-1, buf, {s3 with stat_recv_injected := s3.stat_recv_injected + 1,
                         errno := s3.recv_errno})
    else
      let r := env.real_recv sockfd buf len flags
      let s3 := {s2 with trace := s2.trace ++ [RealCall.recv sockfd len flags]}
      if 1 < r.1 then
        let dsr := should_inject s3.recv_short_rate s3.rand
        let s4 := {s3 with rand := dsr.2}
        if dsr.1 then
          let dr := rand_next s4.rand
          let short_len := short_read_length r.1 dr.1
          let s5 := {s4 with rand := dr.2}
          let s6 := log_inject s5 "recv" sockfd
            ("short read " ++ toString r.1 ++ " -> " ++ toString short_len)
          (short_len, r.2, {s6 with stat_short_reads := s6.stat_short_reads + 1})
        else (r.1, r.2, s4)
      else (r.1, r.2, s3)

/-- Intercepted `write`. -/
def write (env : Env) (s : GState) (fd : Int) (buf : List Nat) (count : Nat) :
    Int × GState :=
  if s.enabled = false then
    (env.real_write fd buf count,
      {s with trace := s.trace ++ [RealCall.write fd buf count]})
  else if 2 < fd ∧ is_targeted_fd s fd = true then
    let di := should_inject s.send_fail_rate s.rand
    let s1 := {s with rand := di.2}
    if di.1 then
      let detail := "-> " ++ errno_name s1.send_errno ++ " (count=" ++ toString count ++ ")"
      let s2 := log_inject s1 "write" fd detail
      (-1, {s2 with stat_send_injected := s2.stat_send_injected + 1,
                    errno := s2.send_errno})
    else
      (env.real_write fd buf count,
        {s1 with trace := s1.trace ++ [RealCall.write fd buf count]})
  else
    (env.real_write fd buf count,
      {s with trace := s.trace ++ [RealCall.write fd buf count]})

/-- Shared tail of the intercepted `read`: the real call followed by
the short-read injection gate (the gate is re-evaluated, as in the
source's single combined condition). -/
def read_tail (env : Env) (s : GState) (fd : Int) (buf : List Nat) (count : Nat) :
    Int × List Nat × GState :=
  let r := env.real_read fd buf count
  let s1 := {s with trace := s.trace ++ [RealCall.read fd count]}
  if 2 < fd ∧ is_targeted_fd s1 fd = true ∧ 1 < r.1 then
    let dsr := should_inject s1.recv_short_rate s1.rand
    let s2 := {s1 with rand := dsr.2}
    if dsr.1 then
      let dr := rand_next s2.rand
      let short_len := short_read_length r.1 dr.1
      let s3 := {s2 with rand := dr.2}
      let s4 := log_inject s3 "read" fd
        ("short read " ++ toString r.1 ++ " -> " ++ toString short_len)
      (short_len, r.2, {s4 with stat_short_reads := s4.stat_short_reads + 1})
    else (r.1, r.2, s2)
  else (r.1, r.2, s1)

/-- Intercepted `read`. -/
def read (env : Env) (s : GState) (fd : Int) (buf : List Nat) (count : Nat) :
    Int × List Nat × GState :=
  if s.enabled = false then
    let r := env.real_read fd buf count
    (r.1, r.2, {s with trace := s.trace ++ [RealCall.read fd count]})
  else if 2 < fd ∧ is_targeted_fd s fd = true then
    let s1 := add_latency s
    let di := should_inject s1.recv_fail_rate s1.rand
    let s2 := {s1 with rand := di.2}
    if di.1 then
      let s3 := log_inject s2 "read" fd ("-> " ++ errno_name s2.recv_errno)
      (-1, buf, {s3 with stat_recv_injected := s3.stat_recv_injected + 1,
                         errno := s3.recv_errno})
    else read_tail env s2 fd buf count
  else read_tail env s fd buf count

/-- Intercepted `open` (named `open'` since `open` is a Lean keyword);
the variadic mode argument is read only under O_CREAT, else 0. -/
def open' (env : Env) (s : GState) (pathname : String) (flags : Nat)
    (mode_arg : Int) : Int × GState :=
  let mode : Int := if flags &&& O_CREAT ≠ 0 then mode_arg else 0
  if s.enabled = false then
    (env.real_open pathname flags mode,
      {s with trace := s.trace ++ [RealCall.open' pathname flags mode]})
  else
    let di := should_inject s.open_fail_rate s.rand
    let s1 := {s with rand := di.2}
    if di.1 then
      let detail := "-> " ++ errno_name s1.open_errno ++ " (path=" ++ pathname ++ ")"
      let s2 := log_inject s1 "open" (-1) detail
      (-1, {s2 with errno := s2.open_errno})
    else
      (env.real_open pathname flags mode,
        {s1 with trace := s1.trace ++ [RealCall.open' pathname flags mode]})

/-- Intercepted `close`: unmark the fd unconditionally, then forward. -/
def close (env : Env) (s : GState) (fd : Int) : Int × GState :=
  let s1 := {s with targeted_fds := unmark_targeted_fd fd s.targeted_fds}
  (env.real_close fd, {s1 with trace := s1.trace ++ [RealCall.close fd]})

/-- Teardown hook `print_stats`: if the log sink is open and injection
is enabled, write the [STATS] summary line and close the sink. -/
def print_stats (s : GState) : GState :=
  if s.log_open = true ∧ s.enabled = true then
    {s with log := s.log ++ [LogEvent.stats s.stat_connect_injected
              s.stat_send_injected s.stat_recv_injected s.stat_short_reads],
            log_open := false}
  else s

/-! Projection lemmas: `add_latency` touches only `sleeps`, `log_inject`
touches only `log`. -/

@[simp] theorem add_latency_enabled (s : GState) : (add_latency s).enabled = s.enabled := by
  unfold add_latency; split <;> rfl

@[simp] theorem add_latency_recv_fail_rate (s : GState) :
    (add_latency s).recv_fail_rate = s.recv_fail_rate := by
  unfold add_latency; split <;> rfl

@[simp] theorem add_latency_recv_short_rate (s : GState) :
    (add_latency s).recv_short_rate = s.recv_short_rate := by
  unfold add_latency; split <;> rfl

@[simp] theorem add_latency_send_fail_rate (s : GState) :
    (add_latency s).send_fail_rate = s.send_fail_rate := by
  unfold add_latency; split <;> rfl

@[simp] theorem add_latency_connect_fail_rate (s : GState) :
    (add_latency s).connect_fail_rate = s.connect_fail_rate := by
  unfold add_latency; split <;> rfl

@[simp] theorem add_latency_connect_errno (s : GState) :
    (add_latency s).connect_errno = s.connect_errno := by
  unfold add_latency; split <;> rfl

@[simp] theorem add_latency_send_errno (s : GState) :
    (add_latency s).send_errno = s.send_errno := by
  unfold add_latency; split <;> rfl

@[simp] theorem add_latency_recv_errno (s : GState) :
    (add_latency s).recv_errno = s.recv_errno := by
  unfold add_latency; split <;> rfl

@[simp] theorem add_latency_rand (s : GState) : (add_latency s).rand = s.rand := by
  unfold add_latency; split <;> rfl

@[simp] theorem add_latency_trace (s : GState) : (add_latency s).trace = s.trace := by
  unfold add_latency; split <;> rfl

@[simp] theorem add_latency_log (s : GState) : (add_latency s).log = s.log := by
  unfold add_latency; split <;> rfl

@[simp] theorem add_latency_log_open (s : GState) : (add_latency s).log_open = s.log_open := by
  unfold add_latency; split <;> rfl

@[simp] theorem add_latency_targeted_fds (s : GState) :
    (add_latency s).targeted_fds = s.targeted_fds := by
  unfold add_latency; split <;> rfl

@[simp] theorem add_latency_errno (s : GState) : (add_latency s).errno = s.errno := by
  unfold add_latency; split <;> rfl

@[simp] theorem add_latency_stat_connect (s : GState) :
    (add_latency s).stat_connect_injected = s.stat_connect_injected := by
  unfold add_latency; split <;> rfl

@[simp] theorem add_latency_stat_send (s : GState) :
    (add_latency s).stat_send_injected = s.stat_send_injected := by
  unfold add_latency; split <;> rfl

@[simp] theorem add_latency_stat_recv (s : GState) :
    (add_latency s).stat_recv_injected = s.stat_recv_injected := by
  unfold add_latency; split <;> rfl

@[simp] theorem add_latency_stat_short (s : GState) :
    (add_latency s).stat_short_reads = s.stat_short_reads := by
  unfold add_latency; split <;> rfl

@[simp] theorem log_inject_targeted_fds (s : GState) (f : String) (fd : Int) (d : String) :
    (log_inject s f fd d).targeted_fds = s.targeted_fds := by
  unfold log_inject; split <;> rfl

@[simp] theorem log_inject_rand (s : GState) (f : String) (fd : Int) (d : String) :
    (log_inject s f fd d).rand = s.rand := by
  unfold log_inject; split <;> rfl

@[simp] theorem log_inject_trace (s : GState) (f : String) (fd : Int) (d : String) :
    (log_inject s f fd d).trace = s.trace := by
  unfold log_inject; split <;> rfl

@[simp] theorem log_inject_errno (s : GState) (f : String) (fd : Int) (d : String) :
    (log_inject s f fd d).errno = s.errno := by
  unfold log_inject; split <;> rfl

@[simp] theorem log_inject_connect_errno (s : GState) (f : String) (fd : Int) (d : String) :
    (log_inject s f fd d).connect_errno = s.connect_errno := by
  unfold log_inject; split <;> rfl

@[simp] theorem log_inject_send_errno (s : GState) (f : String) (fd : Int) (d : String) :
    (log_inject s f fd d).send_errno = s.send_errno := by
  unfold log_inject; split <;> rfl

@[simp] theorem log_inject_recv_errno (s : GState) (f : String) (fd : Int) (d : String) :
    (log_inject s f fd d).recv_errno = s.recv_errno := by
  unfold log_inject; split <;> rfl

@[simp] theorem log_inject_stat_connect (s : GState) (f : String) (fd : Int) (d : String) :
    (log_inject s f fd d).stat_connect_injected = s.stat_connect_injected := by
  unfold log_inject; split <;> rfl

@[simp] theorem log_inject_stat_send (s : GState) (f : String) (fd : Int) (d : String) :
    (log_inject s f fd d).stat_send_injected = s.stat_send_injected := by
  unfold log_inject; split <;> rfl

@[simp] theorem log_inject_stat_recv (s : GState) (f : String) (fd : Int) (d : String) :
    (log_inject s f fd d).stat_recv_injected = s.stat_recv_injected := by
  unfold log_inject; split <;> rfl

@[simp] theorem log_inject_stat_short (s : GState) (f : String) (fd : Int) (d : String) :
    (log_inject s f fd d).stat_short_reads = s.stat_short_reads := by
  unfold log_inject; split <;> rfl

/-- A fixed environment of real-operation oracles used for concrete
evaluations. -/
def env0 : Env where
  real_connect := fun _ _ => 0
  real_send := fun _ _ len _ => (len : Int)
  real_recv := fun _ buf _ _ => ((buf.length : Int), buf)
  real_write := fun _ _ count => (count : Int)
  real_read := fun _ buf count => ((count : Int), buf ++ [9, 9])
  real_open := fun _ _ _ => 3
  real_close := fun _ => 0

/-- A fixed base state (injection disabled) used for concrete
evaluations. -/
def s0 : GState where
  enabled := false
  connect_fail_rate := 1
  connect_errno := ETIMEDOUT
  send_fail_rate := 1
  send_errno := EPIPE
  recv_fail_rate := 1
  recv_short_rate := 1
  recv_errno := ECONNRESET
  open_fail_rate := 1
  open_errno := ENOENT
  latency_ms := 5
  target_port := 0
  log_open := true
  log := []
  stat_connect_injected := 0
  stat_send_injected := 0
  stat_recv_injected := 0
  stat_short_reads := 0
  targeted_fds := ∅
  rand := ⟨[7]⟩
  sleeps := []
  errno := 0
  trace := []

/-- C1: with the enabled flag false, each intercepted operation
forwards its arguments unchanged to the real implementation and
returns its result unchanged, with no latency sleep, no log write, no
counter increment and no registry change (the final state differs from
the initial one only by the recorded real call); `close` is the sole
exception: it still unmarks the fd even when disabled. -/
theorem C1_disabled_passthrough (env : Env) (s : GState) (h : s.enabled = false) :
    (∀ fd addr, connect env s fd addr =
      (env.real_connect fd addr,
        {s with trace := s.trace ++ [RealCall.connect fd addr]})) ∧
    (∀ fd buf len flags, send env s fd buf len flags =
      (env.real_send fd buf len flags,
        {s with trace := s.trace ++ [RealCall.send fd buf len flags]})) ∧
    (∀ fd buf len flags, recv env s fd buf len flags =
      ((env.real_recv fd buf len flags).1, (env.real_recv fd buf len flags).2,
        {s with trace := s.trace ++ [RealCall.recv fd len flags]})) ∧
    (∀ fd buf count, write env s fd buf count =
      (env.real_write fd buf count,
        {s with trace := s.trace ++ [RealCall.write fd buf count]})) ∧
    (∀ fd buf count, read env s fd buf count =
      ((env.real_read fd buf count).1, (env.real_read fd buf count).2,
        {s with trace := s.trace ++ [RealCall.read fd count]})) ∧
    (∀ path flags mode_arg, open' env s path flags mode_arg =
      (env.real_open path flags (if flags &&& O_CREAT ≠ 0 then mode_arg else 0),
        {s with trace := s.trace ++
          [RealCall.open' path flags (if flags &&& O_CREAT ≠ 0 then mode_arg else 0)]})) ∧
    (∀ fd, close env s fd =
      (env.real_close fd,
        {s with targeted_fds := unmark_targeted_fd fd s.targeted_fds,
                trace := s.trace ++ [RealCall.close fd]})) := by
  refine ⟨?_, ?_, ?_, ?_, ?_, ?_, ?_⟩
  · intro fd addr; simp [connect, h]
  · intro fd buf len flags; simp [send, h]
  · intro fd buf len flags; simp [recv, h]
  · intro fd buf count; simp [write, h]
  · intro fd buf count; simp [read, h]
  · intro path flags mode_arg; simp [open', h]
  · intro fd; simp [close]

/-- Witness for C1 at a concrete disabled state. -/
theorem C1_disabled_passthrough_witness :
    s0.enabled = false ∧
    connect env0 s0 3 (SockAddr.v4 1 80) =
      (env0.real_connect 3 (SockAddr.v4 1 80),
        {s0 with trace := s0.trace ++ [RealCall.connect 3 (SockAddr.v4 1 80)]}) :=
  ⟨rfl, (C1_disabled_passthrough env0 s0 rfl).1 3 (SockAddr.v4 1 80)⟩

/-- C2: with injection enabled and a target-matching address, the fd
registry after `connect` is exactly `mark_targeted_fd` of the initial
registry (so the fd is marked afterwards whether the connect is
injected-failed, really fails, or succeeds), and an in-bounds fd is
targeted afterwards; and every `close` leaves the registry exactly
`unmark_targeted_fd` of the initial registry — even when injection is
globally disabled — after which the fd is not targeted. -/
theorem C2_connect_marks_close_unmarks (env : Env) (s : GState) (sockfd : Int)
    (addr : SockAddr) (h1 : s.enabled = true) (h2 : matches_target s addr = true) :
    ((connect env s sockfd addr).2).targeted_fds =
      mark_targeted_fd sockfd s.targeted_fds ∧
    (0 ≤ sockfd → sockfd < MAX_TRACKED_FDS →
      is_targeted_fd (connect env s sockfd addr).2 sockfd = true) ∧
    (∀ (t : GState) (fd : Int),
      ((close env t fd).2).targeted_fds = unmark_targeted_fd fd t.targeted_fds ∧
      is_targeted_fd (close env t fd).2 fd = false) := by
  have hreg : ((connect env s sockfd addr).2).targeted_fds =
      mark_targeted_fd sockfd s.targeted_fds := by
    simp only [connect, h1, h2, Bool.true_eq_false, if_false, if_true]
    split <;> simp
  refine ⟨hreg, ?_, ?_⟩
  · intro hb1 hb2
    have hnb : ¬(sockfd < 0 ∨ MAX_TRACKED_FDS ≤ sockfd) :=
      not_or.2 ⟨not_lt.2 hb1, not_le.2 hb2⟩
    rw [is_targeted_fd, hreg, if_neg hnb, mark_targeted_fd, if_pos ⟨hb1, hb2⟩]
    simp
  · intro t fd
    constructor
    · simp [close]
    · by_cases hb : 0 ≤ fd ∧ fd < MAX_TRACKED_FDS
      · have hnb : ¬(fd < 0 ∨ MAX_TRACKED_FDS ≤ fd) :=
          not_or.2 ⟨not_lt.2 hb.1, not_le.2 hb.2⟩
        rw [is_targeted_fd, if_neg hnb]
        simp [close, unmark_targeted_fd, hb]
      · have hb' : fd < 0 ∨ MAX_TRACKED_FDS ≤ fd := by
          rcases not_and_or.1 hb with h | h
          · exact Or.inl (not_le.1 h)
          · exact Or.inr (not_lt.1 h)
        rw [is_targeted_fd, if_pos hb']

/-- Witness for C2 at a concrete enabled state with no port filter. -/
theorem C2_connect_marks_close_unmarks_witness :
    ({s0 with enabled := true}).enabled = true ∧
    matches_target {s0 with enabled := true} (SockAddr.v4 1 80) = true ∧
    is_targeted_fd (connect env0 {s0 with enabled := true} 3 (SockAddr.v4 1 80)).2 3 = true ∧
    is_targeted_fd (close env0
      (connect env0 {s0 with enabled := true} 3 (SockAddr.v4 1 80)).2 3).2 3 = false := by
  have h := C2_connect_marks_close_unmarks env0 {s0 with enabled := true} 3
    (SockAddr.v4 1 80) rfl rfl
  exact ⟨rfl, rfl, h.2.1 (by decide) (by decide),
    (h.2.2 (connect env0 {s0 with enabled := true} 3 (SockAddr.v4 1 80)).2 3).2⟩

/-- C3: with injection enabled, a configured (non-zero) target port
filter and an fd not marked in the registry, `send` and `recv` are
pure passthroughs: the real operation's result is returned and the
state is unchanged apart from the recorded real call (so no latency,
no rate check or random draw, no injection, no logging, no counter
change), whatever the configured rates in the state. -/
theorem C3_untargeted_bypass (env : Env) (s : GState) (fd : Int) (buf : List Nat)
    (len : Nat) (flags : Int) (h1 : s.enabled = true) (h2 : s.target_port ≠ 0)
    (h3 : is_targeted_fd s fd = false) :
    send env s fd buf len flags =
      (env.real_send fd buf len flags,
        {s with trace := s.trace ++ [RealCall.send fd buf len flags]}) ∧
    recv env s fd buf len flags =
      ((env.real_recv fd buf len flags).1, (env.real_recv fd buf len flags).2,
        {s with trace := s.trace ++ [RealCall.recv fd len flags]}) := by
  constructor
  · simp [send, h1, h2, h3]
  · simp [recv, h1, h2, h3]

/-- Witness for C3: port filter 80, empty registry, all rates 1. -/
theorem C3_untargeted_bypass_witness :
    ({s0 with enabled := true, target_port := 80}).enabled = true ∧
    ({s0 with enabled := true, target_port := 80}).target_port ≠ 0 ∧
    is_targeted_fd {s0 with enabled := true, target_port := 80} 5 = false ∧
    send env0 {s0 with enabled := true, target_port := 80} 5 [1, 2] 2 0 =
      (env0.real_send 5 [1, 2] 2 0,
        {{s0 with enabled := true, target_port := 80} with
          trace := ({s0 with enabled := true, target_port := 80}).trace ++
            [RealCall.send 5 [1, 2] 2 0]}) := by
  have h := C3_untargeted_bypass env0 {s0 with enabled := true, target_port := 80}
    5 [1, 2] 2 0 rfl (by decide) (by decide)
  exact ⟨rfl, by decide, by decide, h.1⟩

/-- C10: with injection enabled and a non-zero target port filter, a
`connect` whose address family is neither IPv4 nor IPv6 is treated as
not matching: the fd is not marked (registry unchanged), no connect
injection occurs for any configured rate (no counter change, no log
write, no random draw, result is the real connect's result), and the
call forwards to the real connect. -/
theorem C10_other_family_not_matched (env : Env) (s : GState) (fd : Int)
    (fam : Nat) (h1 : s.enabled = true) (h2 : s.target_port ≠ 0) :
    (connect env s fd (SockAddr.other fam)).1 =
      env.real_connect fd (SockAddr.other fam) ∧
    ((connect env s fd (SockAddr.other fam)).2).targeted_fds = s.targeted_fds ∧
    ((connect env s fd (SockAddr.other fam)).2).stat_connect_injected =
      s.stat_connect_injected ∧
    ((connect env s fd (SockAddr.other fam)).2).log = s.log ∧
    ((connect env s fd (SockAddr.other fam)).2).rand = s.rand ∧
    ((connect env s fd (SockAddr.other fam)).2).errno = s.errno ∧
    ((connect env s fd (SockAddr.other fam)).2).trace =
      s.trace ++ [RealCall.connect fd (SockAddr.other fam)] := by
  have hm : matches_target s (SockAddr.other fam) = false := by
    simp [matches_target, h2]
  simp [connect, h1, hm]

/-- Witness for C10: enabled, port filter 80, an AF_UNIX-style address. -/
theorem C10_other_family_not_matched_witness :
    ({s0 with enabled := true, target_port := 80}).enabled = true ∧
    ({s0 with enabled := true, target_port := 80}).target_port ≠ 0 ∧
    (connect env0 {s0 with enabled := true, target_port := 80} 3
      (SockAddr.other 1)).1 = env0.real_connect 3 (SockAddr.other 1) ∧
    ((connect env0 {s0 with enabled := true, target_port := 80} 3
      (SockAddr.other 1)).2).targeted_fds =
      ({s0 with enabled := true, target_port := 80}).targeted_fds ∧
    ((connect env0 {s0 with enabled := true, target_port := 80} 3
      (SockAddr.other 1)).2).stat_connect_injected =
      ({s0 with enabled := true, target_port := 80}).stat_connect_injected := by
  have h := C10_other_family_not_matched env0
    {s0 with enabled := true, target_port := 80} 3 1 rfl (by decide)
  exact ⟨rfl, by decide, h.1, h.2.1, h.2.2.1⟩

/-- C5: `should_inject` returns false for every random-source state
when rate ≤ 0, returns true for every state when rate ≥ 1, and only
for rates strictly between 0 and 1 does the result depend on the
random draw (two source states giving different results exist). -/
theorem C5_should_inject_extremes (rate : ℚ) :
    (∀ r : RandState, rate ≤ 0 → (should_inject rate r).1 = false) ∧
    (∀ r : RandState, 1 ≤ rate → (should_inject rate r).1 = true) ∧
    (0 < rate → rate < 1 →
      ∃ r1 r2 : RandState, (should_inject rate r1).1 ≠ (should_inject rate r2).1) := by
  refine ⟨?_, ?_, ?_⟩
  · intro r h
    simp [should_inject, h]
  · intro r h
    have h0 : ¬ rate ≤ 0 := by linarith
    simp [should_inject, h, h0]
  · intro hlo hhi
    refine ⟨⟨[0]⟩, ⟨[2147483647]⟩, ?_⟩
    have h0 : ¬ rate ≤ 0 := by linarith
    have h1 : ¬ (1 : ℚ) ≤ rate := by linarith
    simp only [should_inject, h0, h1, if_false, rand_next, RAND_MAX]
    norm_num
    intro hiff
    exact h1 (le_of_lt (hiff.1 hlo))

/-- Witness for C5 at rates 0, 1 and 1/2. -/
theorem C5_should_inject_extremes_witness :
    (should_inject 0 ⟨[5]⟩).1 = false ∧
    (should_inject 1 ⟨[5]⟩).1 = true ∧
    (0 < (1 : ℚ) / 2 ∧ (1 : ℚ) / 2 < 1 ∧
      ∃ r1 r2 : RandState,
        (should_inject ((1 : ℚ) / 2) r1).1 ≠ (should_inject ((1 : ℚ) / 2) r2).1) :=
  ⟨(C5_should_inject_extremes 0).1 ⟨[5]⟩ (by norm_num),
   (C5_should_inject_extremes 1).2.1 ⟨[5]⟩ (by norm_num),
   by norm_num,
   by norm_num,
   (C5_should_inject_extremes ((1 : ℚ) / 2)).2.2 (by norm_num) (by norm_num)⟩

/-- Range of the short-read truncation: for real length n > 1 and any
draw, the reported length is in [1, (n+1)/2] and never exceeds n. -/
theorem short_read_length_bounds (n : Int) (hn : 1 < n) (d : Nat) :
    1 ≤ short_read_length n d ∧ short_read_length n d ≤ (n + 1) / 2 ∧
      short_read_length n d ≤ n := by
  have hm1 : 1 ≤ (n + 1) / 2 := by omega
  have hm2 : (n + 1) / 2 ≤ n := by omega
  have hmod0 : 0 ≤ (d : Int) % ((n + 1) / 2) :=
    Int.emod_nonneg _ (by omega)
  have hmod1 : (d : Int) % ((n + 1) / 2) < (n + 1) / 2 :=
    Int.emod_lt_of_pos _ (by omega)
  unfold short_read_length
  omega

/-- C4: for a non-bypassed enabled `recv`, the recv-fail-rate decision
comes first: if it triggers, the real recv is never invoked (trace
unchanged) and the call fails with the configured recv errno; only if
it does not trigger is the real recv invoked exactly once (trace grows
by exactly that call), and the short-read decision applies only to the
real returned length when it exceeds 1; in every case the trace grows
by at most one real call, so the real operation is never invoked
twice. -/
theorem C4_recv_two_stage (env : Env) (s : GState) (fd : Int) (buf : List Nat)
    (len : Nat) (flags : Int) (h1 : s.enabled = true)
    (h2 : ¬(is_targeted_fd s fd = false ∧ s.target_port ≠ 0)) :
    ((should_inject s.recv_fail_rate s.rand).1 = true →
      (recv env s fd buf len flags).1 = -1 ∧
      (recv env s fd buf len flags).2.2.errno = s.recv_errno ∧
      (recv env s fd buf len flags).2.2.stat_recv_injected =
        s.stat_recv_injected + 1 ∧
      (recv env s fd buf len flags).2.2.trace = s.trace) ∧
    ((should_inject s.recv_fail_rate s.rand).1 = false →
      (recv env s fd buf len flags).2.2.trace =
        s.trace ++ [RealCall.recv fd len flags] ∧
      ((env.real_recv fd buf len flags).1 ≤ 1 →
        (recv env s fd buf len flags).1 = (env.real_recv fd buf len flags).1) ∧
      (1 < (env.real_recv fd buf len flags).1 →
        ((should_inject s.recv_short_rate
            (should_inject s.recv_fail_rate s.rand).2).1 = false →
          (recv env s fd buf len flags).1 = (env.real_recv fd buf len flags).1) ∧
        ((should_inject s.recv_short_rate
            (should_inject s.recv_fail_rate s.rand).2).1 = true →
          (recv env s fd buf len flags).1 =
            short_read_length (env.real_recv fd buf len flags).1
              (rand_next (should_inject s.recv_short_rate
                (should_inject s.recv_fail_rate s.rand).2).2).1))) ∧
    ((recv env s fd buf len flags).2.2.trace = s.trace ∨
      (recv env s fd buf len flags).2.2.trace =
        s.trace ++ [RealCall.recv fd len flags]) := by
  refine ⟨?_, ?_, ?_⟩
  · intro hf
    refine ⟨?_, ?_, ?_, ?_⟩ <;> simp [recv, h1, h2, hf]
  · intro hf
    refine ⟨?_, ?_, ?_⟩
    · by_cases hn : 1 < (env.real_recv fd buf len flags).1
      · by_cases hs : (should_inject s.recv_short_rate
            (should_inject s.recv_fail_rate s.rand).2).1 = true
        · simp [recv, h1, h2, hf, hn, hs]
        · rw [Bool.not_eq_true] at hs
          simp [recv, h1, h2, hf, hn, hs]
      · simp [recv, h1, h2, hf, hn]
    · intro hn
      simp [recv, h1, h2, hf, not_lt.2 hn]
    · intro hn
      constructor
      · intro hs
        simp [recv, h1, h2, hf, hn, hs]
      · intro hs
        simp [recv, h1, h2, hf, hn, hs]
  · by_cases hf : (should_inject s.recv_fail_rate s.rand).1 = true
    · left; simp [recv, h1, h2, hf]
    · right
      rw [Bool.not_eq_true] at hf
      by_cases hn : 1 < (env.real_recv fd buf len flags).1
      · by_cases hs : (should_inject s.recv_short_rate
            (should_inject s.recv_fail_rate s.rand).2).1 = true
        · simp [recv, h1, h2, hf, hn, hs]
        · rw [Bool.not_eq_true] at hs
          simp [recv, h1, h2, hf, hn, hs]
      · simp [recv, h1, h2, hf, hn]

/-- Witness for C4 at a concrete state with no port filter and
recv-fail-rate 1 (the first decision triggers deterministically). -/
theorem C4_recv_two_stage_witness :
    ({s0 with enabled := true}).enabled = true ∧
    ¬(is_targeted_fd {s0 with enabled := true} 3 = false ∧
      ({s0 with enabled := true}).target_port ≠ 0) ∧
    (should_inject ({s0 with enabled := true}).recv_fail_rate
      ({s0 with enabled := true}).rand).1 = true ∧
    (recv env0 {s0 with enabled := true} 3 [1, 2, 3] 3 0).1 = -1 ∧
    (recv env0 {s0 with enabled := true} 3 [1, 2, 3] 3 0).2.2.trace =
      ({s0 with enabled := true}).trace := by
  have h := (C4_recv_two_stage env0 {s0 with enabled := true} 3 [1, 2, 3] 3 0
    rfl (by decide)).1 (by decide)
  exact ⟨rfl, by decide, by decide, h.1, h.2.2.2⟩

/-- In the short-read branch of `recv`, the reported value is the
truncated length and the caller's buffer is exactly what the real recv
delivered. -/
theorem recv_short_result (env : Env) (s : GState) (fd : Int) (buf : List Nat)
    (len : Nat) (flags : Int) (h1 : s.enabled = true)
    (h2 : ¬(is_targeted_fd s fd = false ∧ s.target_port ≠ 0))
    (hf : (should_inject s.recv_fail_rate s.rand).1 = false)
    (hn : 1 < (env.real_recv fd buf len flags).1)
    (hs : (should_inject s.recv_short_rate
      (should_inject s.recv_fail_rate s.rand).2).1 = true) :
    (recv env s fd buf len flags).1 =
      short_read_length (env.real_recv fd buf len flags).1
        (rand_next (should_inject s.recv_short_rate
          (should_inject s.recv_fail_rate s.rand).2).2).1 ∧
    (recv env s fd buf len flags).2.1 = (env.real_recv fd buf len flags).2 := by
  constructor <;> simp [recv, h1, h2, hf, hn, hs]

/-- In the short-read branch of `read`, the reported value is the
truncated length and the caller's buffer is exactly what the real read
delivered. -/
theorem read_short_result (env : Env) (s : GState) (fd : Int) (buf : List Nat)
    (count : Nat) (h1 : s.enabled = true)
    (hg1 : 2 < fd) (hg2 : is_targeted_fd s fd = true)
    (hf : (should_inject s.recv_fail_rate s.rand).1 = false)
    (hn : 1 < (env.real_read fd buf count).1)
    (hs : (should_inject s.recv_short_rate
      (should_inject s.recv_fail_rate s.rand).2).1 = true) :
    (read env s fd buf count).1 =
      short_read_length (env.real_read fd buf count).1
        (rand_next (should_inject s.recv_short_rate
          (should_inject s.recv_fail_rate s.rand).2).2).1 ∧
    (read env s fd buf count).2.1 = (env.real_read fd buf count).2 := by
  have hg2' := hg2
  rw [is_targeted_fd] at hg2'
  constructor <;>
    simp [read, read_tail, is_targeted_fd, h1, hg1, hg2, hg2', hf, hn, hs]

/-- C6: whenever a short read is injected in `recv` or `read`, the
reported truncated length lies in [1, (n+1)/2] for real returned
length n > 1 — never 0, never negative, never exceeding n — for every
state of the random source. -/
theorem C6_short_read_bounds (env : Env) (s : GState) (fd : Int) (buf : List Nat)
    (len : Nat) (flags : Int) (count : Nat) (h1 : s.enabled = true)
    (h2 : ¬(is_targeted_fd s fd = false ∧ s.target_port ≠ 0))
    (hg1 : 2 < fd) (hg2 : is_targeted_fd s fd = true)
    (hf : (should_inject s.recv_fail_rate s.rand).1 = false)
    (hs : (should_inject s.recv_short_rate
      (should_inject s.recv_fail_rate s.rand).2).1 = true)
    (hnr : 1 < (env.real_recv fd buf len flags).1)
    (hnd : 1 < (env.real_read fd buf count).1) :
    (1 ≤ (recv env s fd buf len flags).1 ∧
     (recv env s fd buf len flags).1 ≤ ((env.real_recv fd buf len flags).1 + 1) / 2 ∧
     (recv env s fd buf len flags).1 ≤ (env.real_recv fd buf len flags).1) ∧
    (1 ≤ (read env s fd buf count).1 ∧
     (read env s fd buf count).1 ≤ ((env.real_read fd buf count).1 + 1) / 2 ∧
     (read env s fd buf count).1 ≤ (env.real_read fd buf count).1) := by
  constructor
  · rw [(recv_short_result env s fd buf len flags h1 h2 hf hnr hs).1]
    exact short_read_length_bounds _ hnr _
  · rw [(read_short_result env s fd buf count h1 hg1 hg2 hf hnd hs).1]
    exact short_read_length_bounds _ hnd _

/-- A concrete state for the short-read scenarios: enabled, no port
filter, fd 5 targeted, recv-fail-rate 0, short-read-rate 1. -/
def s67 : GState :=
  {s0 with enabled := true, recv_fail_rate := 0, targeted_fds := {5}}

/-- Witness for C6: real recv returns 3 and real read returns 10, so
the reported lengths lie in [1,2] and [1,5] respectively. -/
theorem C6_short_read_bounds_witness :
    s67.enabled = true ∧
    ¬(is_targeted_fd s67 5 = false ∧ s67.target_port ≠ 0) ∧
    (2 : Int) < 5 ∧ is_targeted_fd s67 5 = true ∧
    (should_inject s67.recv_fail_rate s67.rand).1 = false ∧
    (should_inject s67.recv_short_rate
      (should_inject s67.recv_fail_rate s67.rand).2).1 = true ∧
    1 < (env0.real_recv 5 [1, 2, 3] 3 0).1 ∧
    1 < (env0.real_read 5 [1, 2, 3, 4, 5, 6, 7, 8] 10).1 ∧
    (1 ≤ (recv env0 s67 5 [1, 2, 3] 3 0).1 ∧
     (recv env0 s67 5 [1, 2, 3] 3 0).1 ≤ 2 ∧
     (recv env0 s67 5 [1, 2, 3] 3 0).1 ≤ 3) := by
  have h := C6_short_read_bounds env0 s67 5 [1, 2, 3] 3 0 10 rfl (by decide)
    (by decide) (by decide) (by decide) (by decide) (by decide) (by decide)
  exact ⟨rfl, by decide, by decide, by decide, by decide, by decide, by decide,
    by decide, h.1⟩

/-- C7: on a short-read injection in `recv` or `read`, only the
reported length is reduced: the caller's buffer is exactly the buffer
the real operation delivered (all real bytes present, including those
past the truncated length). -/
theorem C7_short_read_buffer_intact (env : Env) (s : GState) (fd : Int)
    (buf : List Nat) (len : Nat) (flags : Int) (count : Nat)
    (h1 : s.enabled = true)
    (h2 : ¬(is_targeted_fd s fd = false ∧ s.target_port ≠ 0))
    (hg1 : 2 < fd) (hg2 : is_targeted_fd s fd = true)
    (hf : (should_inject s.recv_fail_rate s.rand).1 = false)
    (hs : (should_inject s.recv_short_rate
      (should_inject s.recv_fail_rate s.rand).2).1 = true)
    (hnr : 1 < (env.real_recv fd buf len flags).1)
    (hnd : 1 < (env.real_read fd buf count).1) :
    (recv env s fd buf len flags).2.1 = (env.real_recv fd buf len flags).2 ∧
    (read env s fd buf count).2.1 = (env.real_read fd buf count).2 :=
  ⟨(recv_short_result env s fd buf len flags h1 h2 hf hnr hs).2,
   (read_short_result env s fd buf count h1 hg1 hg2 hf hnd hs).2⟩

/-- Witness for C7: ten real bytes all remain in the buffer while the
reported length is truncated. -/
theorem C7_short_read_buffer_intact_witness :
    s67.enabled = true ∧
    ¬(is_targeted_fd s67 5 = false ∧ s67.target_port ≠ 0) ∧
    (2 : Int) < 5 ∧ is_targeted_fd s67 5 = true ∧
    (should_inject s67.recv_fail_rate s67.rand).1 = false ∧
    (should_inject s67.recv_short_rate
      (should_inject s67.recv_fail_rate s67.rand).2).1 = true ∧
    1 < (env0.real_recv 5 [1, 2, 3, 4, 5, 6, 7, 8, 9, 10] 10 0).1 ∧
    1 < (env0.real_read 5 [1, 2, 3, 4, 5, 6, 7, 8, 9, 10] 10).1 ∧
    (recv env0 s67 5 [1, 2, 3, 4, 5, 6, 7, 8, 9, 10] 10 0).2.1 =
      [1, 2, 3, 4, 5, 6, 7, 8, 9, 10] := by
  have h := C7_short_read_buffer_intact env0 s67 5
    [1, 2, 3, 4, 5, 6, 7, 8, 9, 10] 10 0 10 rfl (by decide) (by decide)
    (by decide) (by decide) (by decide) (by decide) (by decide)
  refine ⟨rfl, by decide, by decide, by decide, by decide, by decide, by decide,
    by decide, ?_⟩
  rw [h.1]
  rfl

/-- C8 counterexample: with the log sink open but injection disabled,
the teardown hook writes nothing and does not close the sink — refuting
the claim that the summary line is written whenever the sink was opened
regardless of the enabled flag. -/
theorem C8_counterexample :
    ({s0 with log_open := true}).log_open = true ∧
    ({s0 with log_open := true}).enabled = false ∧
    (print_stats {s0 with log_open := true}).log =
      ({s0 with log_open := true}).log ∧
    (print_stats {s0 with log_open := true}).log_open = true := by
  refine ⟨rfl, rfl, ?_, ?_⟩ <;> rw [print_stats, if_neg (by decide)]

/-- C8 amended: at process teardown, whenever the log sink was
successfully opened AND the enabled flag is set, exactly one [STATS]
summary line containing all four counters is written and the sink is
then closed; with the sink open but injection disabled nothing is
written and the sink is left untouched. -/
theorem C8_stats_on_teardown (s : GState) (h1 : s.log_open = true)
    (h2 : s.enabled = true) :
    print_stats s =
      {s with log := s.log ++ [LogEvent.stats s.stat_connect_injected
          s.stat_send_injected s.stat_recv_injected s.stat_short_reads],
              log_open := false} := by
  rw [print_stats, if_pos ⟨h1, h2⟩]

/-- Witness for C8's amended claim at a concrete open-and-enabled
state. -/
theorem C8_stats_on_teardown_witness :
    ({s0 with enabled := true, stat_send_injected := 4}).log_open = true ∧
    ({s0 with enabled := true, stat_send_injected := 4}).enabled = true ∧
    print_stats {s0 with enabled := true, stat_send_injected := 4} =
      {{s0 with enabled := true, stat_send_injected := 4} with
        log := ({s0 with enabled := true, stat_send_injected := 4}).log ++
          [LogEvent.stats 0 4 0 0],
        log_open := false} :=
  ⟨rfl, rfl, C8_stats_on_teardown {s0 with enabled := true, stat_send_injected := 4}
    rfl rfl⟩

end FaultInject
